import Mathlib

/-!
A shallow embedding of the SDG_LLM repository (files
`SDG_LLM/text_extarcters.py` and `SDG_LLM/prompt_loaders.py`) together
with theorems checking the repository specification against the code.

Strings are modelled as Lean `String` / `List Char`.  The external LLM
client (`ChatGroq`) is modelled as an oracle function `llm : String →
String` standing for `self.llm.invoke(prompt).content`.  Raised Python
`ValueError`s are modelled with `Except String`; `None` results are
modelled with `Option`.  Batch runs additionally return the list of
document indices at which the model oracle was invoked, in invocation
order (the "spy" trace used by the specification's testable properties).
-/

namespace SDG

/-- Characters stripped by Python `str.strip()` (the ASCII whitespace
subset; no input in this development contains other Unicode spaces). -/
def isPySpace (c : Char) : Bool :=
  c = ' ' || c = '\t' || c = '\n' || c = '\r' || c = '\x0b' || c = '\x0c'

/-- Models Python `s.strip()`: drop leading and trailing whitespace. -/
def pyStrip (cs : List Char) : List Char :=
  ((cs.dropWhile isPySpace).reverse.dropWhile isPySpace).reverse

/-- The triple-backtick fence marker of the pattern `(three backticks)(.*?)(three backticks)`. -/
def fenceMark : List Char := ['\x60', '\x60', '\x60']

/-- Splits a character list at the first occurrence of `fenceMark`:
returns the characters before it and the characters after it, or `none`
when the marker does not occur. -/
def splitAtMark : List Char → Option (List Char × List Char)
  | [] => none
  | c :: cs =>
    if (c :: cs).take 3 = fenceMark then
      some ([], (c :: cs).drop 3)
    else
      match splitAtMark cs with
      | some (p, q) => some (c :: p, q)
      | none => none

/-- Models `re.search(pattern, input_text, re.DOTALL).group(1)` for the
pattern `(three backticks)(.*?)(three backticks)`: the content between the first
fence marker and the next one after it (non-greedy, spanning newlines),
`none` when no fenced block exists. -/
def findFencedBlock (cs : List Char) : Option (List Char) :=
  match splitAtMark cs with
  | none => none
  | some (_, rest) =>
    match splitAtMark rest with
    | none => none
    | some (content, _) => some content

/-- Models Python `range(start, stop, step)` for positive `step`, with
structural fuel so that it evaluates by kernel reduction.  The fuel
`stop - start` dominates the iteration count whenever `1 ≤ step`. -/
def pyRangeAux : Nat → Nat → Nat → Nat → List Nat
  | 0, _, _, _ => []
  | fuel + 1, start, stop, step =>
    if start < stop then start :: pyRangeAux fuel (start + step) stop step
    else []

/-- The index list of Python `range(start, stop, step)` (positive `step`). -/
def pyRange (start stop step : Nat) : List Nat :=
  pyRangeAux (stop - start) start stop step

end SDG

namespace SDG.TextExtarcters

/-- Lead-in of both f-string templates in `text_extarcters.py`
(`PromptGenerator.generate_prompt`), up to the interpolated chunk. -/
def promptPre : String := "\n                Analyze the text: "

/-- Tail of the json f-string template in `text_extarcters.py`, after the
interpolated chunk. -/
def jsonPromptSuf : String := "\n\n                Extract key information and formulate a list of question-answer pairs in JSON format.\n\n                **Example:**\n\n                \"question\": \"What is formed when dilute sulphuric acid is added to zinc granules?\",\n                \"answer\": \"Change in state, change in colour, evolution of a gas, change in temperature.\""

/-- Closing indentation of the f-string templates (newline plus twelve
spaces before the closing quotes). -/
def promptEnd : String := "\n            "

/-- Tail of the csv f-string template in `text_extarcters.py`, after the
interpolated chunk. -/
def csvPromptSuf : String := "\n\n                Extract key information and formulate a list of question-answer pairs in CSV format.\n\n                **Example:**\n                question,answer\n                What is formed when dilute sulphuric acid is added to zinc granules?,Change in state, change in colour, evolution of a gas, change in temperature."

/-- The `ValueError` message raised for unsupported data types. -/
def unsupportedMsg : String :=
  "Currently, only \x27json\x27 and \x27csv\x27 data types are supported for prompt generation."

/-- The `PromptGenerator` class of `text_extarcters.py`: the constructor
only stores `data_type`. -/
structure PromptGenerator where
  data_type : String

/-- `PromptGenerator.generate_prompt` of `text_extarcters.py`: returns
the f-string template for `json` or `csv`, else raises `ValueError`. -/
def PromptGenerator.generate_prompt (g : PromptGenerator) (text_chunk : String) :
    Except String String :=
  if g.data_type = "json" then
    Except.ok (promptPre ++ text_chunk ++ jsonPromptSuf ++ promptEnd)
  else if g.data_type = "csv" then
    Except.ok (promptPre ++ text_chunk ++ csvPromptSuf ++ promptEnd)
  else
    Except.error unsupportedMsg

end SDG.TextExtarcters

namespace SDG

/-- JSON values as decoded by `json.loads`.  Numeric literals are kept
as their source text (no claim in this development compares decoded
numbers, so float semantics are not needed). -/
inductive Json where
  | null
  | bool (b : Bool)
  | num (lit : String)
  | str (s : String)
  | arr (elems : List Json)
  | obj (members : List (String × Json))
deriving Repr

/-- JSON inter-token whitespace (`json.decoder.WHITESPACE`). -/
def isJsonWs (c : Char) : Bool :=
  c = ' ' || c = '\t' || c = '\n' || c = '\r'

/-- Drops leading JSON whitespace. -/
def skipWs (cs : List Char) : List Char := cs.dropWhile isJsonWs

/-- Numeric value of a hexadecimal digit. -/
def hexDigit (c : Char) : Option Nat :=
  if '0' ≤ c ∧ c ≤ '9' then some (c.toNat - 48)
  else if 'a' ≤ c ∧ c ≤ 'f' then some (c.toNat - 87)
  else if 'A' ≤ c ∧ c ≤ 'F' then some (c.toNat - 55)
  else none

/-- Models the strict JSON string scanner: consumes characters up to the
closing quote, decoding the standard escapes, rejecting unescaped
control characters.  `acc` holds the decoded characters in reverse. -/
def parseJStrAux : List Char → List Char → Option (String × List Char)
  | _, [] => none
  | acc, c :: rest =>
    if c = '"' then some (⟨acc.reverse⟩, rest)
    else if c = '\\' then
      match rest with
      | [] => none
      | e :: rest2 =>
        if e = '"' then parseJStrAux ('"' :: acc) rest2
        else if e = '\\' then parseJStrAux ('\\' :: acc) rest2
        else if e = '/' then parseJStrAux ('/' :: acc) rest2
        else if e = 'b' then parseJStrAux ('\x08' :: acc) rest2
        else if e = 'f' then parseJStrAux ('\x0c' :: acc) rest2
        else if e = 'n' then parseJStrAux ('\n' :: acc) rest2
        else if e = 'r' then parseJStrAux ('\r' :: acc) rest2
        else if e = 't' then parseJStrAux ('\t' :: acc) rest2
        else if e = 'u' then
          match rest2 with
          | h1 :: h2 :: h3 :: h4 :: rest3 =>
            match hexDigit h1, hexDigit h2, hexDigit h3, hexDigit h4 with
            | some a, some b, some c2, some d =>
              parseJStrAux (Char.ofNat (4096 * a + 256 * b + 16 * c2 + d) :: acc) rest3
            | _, _, _, _ => none
          | _ => none
        else none
    else if c.toNat < 32 then none
    else parseJStrAux (c :: acc) rest

/-- Longest leading run of decimal digits, with the remainder. -/
def spanDigits (cs : List Char) : List Char × List Char :=
  (cs.takeWhile Char.isDigit, cs.dropWhile Char.isDigit)

/-- Integer part of the JSON number grammar: `0` or a nonzero digit
followed by digits. -/
def parseIntPart : List Char → Option (List Char × List Char)
  | [] => none
  | c :: rest =>
    if c = '0' then some ([c], rest)
    else if '1' ≤ c ∧ c ≤ '9' then
      let (ds, rest2) := spanDigits rest
      some (c :: ds, rest2)
    else none

/-- Optional fractional part `.digits` of the JSON number grammar. -/
def parseFracPart : List Char → List Char × List Char
  | '.' :: rest =>
    match spanDigits rest with
    | ([], _) => ([], '.' :: rest)
    | (ds, rest2) => ('.' :: ds, rest2)
  | cs => ([], cs)

/-- Optional exponent part of the JSON number grammar. -/
def parseExpPart : List Char → List Char × List Char
  | [] => ([], [])
  | e :: rest =>
    if e = 'e' ∨ e = 'E' then
      match rest with
      | [] => ([], [e])
      | s :: rest2 =>
        if s = '+' ∨ s = '-' then
          match spanDigits rest2 with
          | ([], _) => ([], e :: s :: rest2)
          | (ds, rest3) => (e :: s :: ds, rest3)
        else
          match spanDigits rest with
          | ([], _) => ([], e :: rest)
          | (ds, rest3) => (e :: ds, rest3)
    else ([], e :: rest)

/-- JSON number literal (`json.scanner.NUMBER_RE`), returned as its
source text together with the remainder. -/
def parseJNum : List Char → Option (String × List Char)
  | '-' :: rest =>
    (match parseIntPart rest with
      | none => none
      | some (ip, r1) =>
        let (fp, r2) := parseFracPart r1
        let (ep, r3) := parseExpPart r2
        some (⟨'-' :: (ip ++ fp ++ ep)⟩, r3))
  | cs =>
    match parseIntPart cs with
    | none => none
    | some (ip, r1) =>
      let (fp, r2) := parseFracPart r1
      let (ep, r3) := parseExpPart r2
      some (⟨ip ++ fp ++ ep⟩, r3)

/-- Recursive-descent JSON value scanner (models `json.scanner.py_make_scanner`
semantics).  The input must start at a value (callers skip whitespace).
`fuel` decreases structurally so the definition evaluates by kernel
reduction; remaining object members and array elements are parsed by
re-entering the scanner on the remainder prefixed with the opening
bracket, after checking that the next token can start a member/element
(so trailing commas are rejected exactly as `json.loads` rejects them). -/
def parseJVal : Nat → List Char → Option (Json × List Char)
  | 0, _ => none
  | fuel + 1, cs =>
    match cs with
    | [] => none
    | c :: rest =>
      if c = '"' then
        match parseJStrAux [] rest with
        | some (s, r) => some (Json.str s, r)
        | none => none
      else if c = '\x7b' then
        match skipWs rest with
        | '\x7d' :: r => some (Json.obj [], r)
        | '"' :: kr =>
          (match parseJStrAux [] kr with
            | none => none
            | some (k, r1) =>
              match skipWs r1 with
              | ':' :: r2 =>
                (match parseJVal fuel (skipWs r2) with
                  | none => none
                  | some (v, r3) =>
                    match skipWs r3 with
                    | '\x7d' :: r4 => some (Json.obj [(k, v)], r4)
                    | ',' :: r4 =>
                      (match skipWs r4 with
                        | '"' :: _ =>
                          (match parseJVal fuel ('\x7b' :: skipWs r4) with
                            | some (Json.obj tail, r5) => some (Json.obj ((k, v) :: tail), r5)
                            | _ => none)
                        | _ => none)
                    | _ => none)
              | _ => none)
        | _ => none
      else if c = '[' then
        match skipWs rest with
        | ']' :: r => some (Json.arr [], r)
        | cs1 =>
          (match parseJVal fuel cs1 with
            | none => none
            | some (v, r1) =>
              match skipWs r1 with
              | ']' :: r2 => some (Json.arr [v], r2)
              | ',' :: r2 =>
                (match skipWs r2 with
                  | ']' :: _ => none
                  | _ =>
                    (match parseJVal fuel ('[' :: skipWs r2) with
                      | some (Json.arr tail, r3) => some (Json.arr (v :: tail), r3)
                      | _ => none))
              | _ => none)
      else if cs.take 4 = "null".toList then some (Json.null, cs.drop 4)
      else if cs.take 4 = "true".toList then some (Json.bool true, cs.drop 4)
      else if cs.take 5 = "false".toList then some (Json.bool false, cs.drop 5)
      else if cs.take 3 = "NaN".toList then some (Json.num "NaN", cs.drop 3)
      else if cs.take 8 = "Infinity".toList then some (Json.num "Infinity", cs.drop 8)
      else if cs.take 9 = "-Infinity".toList then some (Json.num "-Infinity", cs.drop 9)
      else
        match parseJNum cs with
        | some (lit, r) => some (Json.num lit, r)
        | none => none

/-- Models `json.loads`: skip leading whitespace, scan one value, and
reject trailing non-whitespace ("Extra data").  `none` models a raised
`json.JSONDecodeError`.  The fuel `length + 1` never runs out because
every recursive scanner call strictly shrinks its input. -/
def json_loads (cs : List Char) : Option Json :=
  let t := skipWs cs
  match parseJVal (t.length + 1) t with
  | some (v, rest) => if (skipWs rest).isEmpty then some v else none
  | none => none

end SDG

namespace SDG

/-- Splits a character list into lines at newline characters (the line
iteration of `io.StringIO`; the final fragment after the last newline is
kept, possibly empty). -/
def splitNl : List Char → List (List Char)
  | [] => [[]]
  | c :: rest =>
    if c = '\n' then [] :: splitNl rest
    else
      match splitNl rest with
      | [] => [[c]]
      | l :: ls => (c :: l) :: ls

/-- Drops a single trailing carriage return, as the csv reader strips
the line terminator of each line. -/
def stripCr (l : List Char) : List Char :=
  if l.getLast? = some '\r' then l.dropLast else l

/-- The lines the csv reader iterates over. -/
def csvSplitLines (cs : List Char) : List (List Char) :=
  (splitNl cs).map stripCr

/-- Splits one csv line at commas. -/
def splitComma : List Char → List (List Char)
  | [] => [[]]
  | c :: rest =>
    if c = ',' then [] :: splitComma rest
    else
      match splitComma rest with
      | [] => [[c]]
      | l :: ls => (c :: l) :: ls

/-- One record of `csv.reader` with the default dialect: a blank line
yields the empty record, otherwise the comma-separated fields.  (The
default dialect's quote handling is not exercised by this repository's
specification; inputs here contain no quote character.) -/
def parseCsvRecord (line : List Char) : List String :=
  if line.isEmpty then [] else (splitComma line).map (fun l => String.mk l)

/-- A cell of a `csv.DictReader` row: a field value, the `restval`
(`None`) filled in for missing columns, or the `restkey` list of surplus
columns. -/
inductive CsvCell where
  | val (s : String)
  | missing
  | extras (l : List String)
deriving Repr, DecidableEq

/-- A `csv.DictReader` row in insertion order: fieldname keys paired
with cells, with the surplus columns (if any) keyed by `restkey = None`,
modelled as the key `none`. -/
abbrev CsvRow : Type := List (Option String × CsvCell)

/-- One dictionary of `csv.DictReader.__next__`: zip the fieldnames with
the row values, fill missing fieldnames with `restval`, and collect
surplus values under `restkey`. -/
def dictRow (fieldnames row : List String) : CsvRow :=
  ((fieldnames.zip row).map (fun p => (some p.1, CsvCell.val p.2)))
    ++ ((fieldnames.drop row.length).map (fun k => (some k, CsvCell.missing)))
    ++ (if fieldnames.length < row.length then
          [(none, CsvCell.extras (row.drop fieldnames.length))]
        else [])

/-- Models iterating `csv.DictReader(io.StringIO(cs))`: the first reader
record (even when empty) becomes the fieldnames, every later non-blank
record becomes a dictionary. -/
def dictReaderRows (cs : List Char) : List CsvRow :=
  match (csvSplitLines cs).map parseCsvRecord with
  | [] => []
  | fieldnames :: rest =>
    (rest.filter (fun r => !r.isEmpty)).map (dictRow fieldnames)

end SDG

namespace SDG.TextExtarcters

open SDG

/-- The `DocumentAnalyzer` class of `text_extarcters.py`.  The `ChatGroq`
client built in `__init__` is modelled by the oracle `llm`, standing for
`self.llm.invoke(prompt).content`. -/
structure DocumentAnalyzer where
  llm : String → String

/-- `DocumentAnalyzer.extract_json_from_text`: locate the first fenced
block, strip it, and `json.loads` it; `none` on a missing block or a
parse error (the printed diagnostics are log-only side effects). -/
def DocumentAnalyzer.extract_json_from_text (_a : DocumentAnalyzer) (input_text : String) :
    Option Json :=
  match findFencedBlock input_text.data with
  | some m => json_loads (pyStrip m)
  | none => none

/-- `DocumentAnalyzer.extract_csv_from_text`: locate the first fenced
block, strip it, and read it with `csv.DictReader`; `none` when no block
is found.  (The `try` body raises no exception on any pure input, so the
`except` arm is dead and success always returns the row list.) -/
def DocumentAnalyzer.extract_csv_from_text (_a : DocumentAnalyzer) (input_text : String) :
    Option (List CsvRow) :=
  match findFencedBlock input_text.data with
  | some m => some (dictReaderRows (pyStrip m))
  | none => none

/-- One slot of the `extract_eval_data` result list before the `None`
wrapper: a decoded JSON value or a csv row list. -/
inductive Extracted where
  | json (v : Json)
  | csv (rows : List CsvRow)

/-- The loop body of `DocumentAnalyzer.extract_eval_data` over the
selected index list.  The first component models the Python result
(`Except.error` a raised `ValueError`; `Except.ok none` the
`return None` arm for an unsupported `data_type` reached after a model
call; `Except.ok (some l)` a returned list).  The second component is
the spy trace: the document indices at which `llm` was invoked, in
order. -/
def DocumentAnalyzer.extractLoop (a : DocumentAnalyzer) (documents : List String)
    (data_type : String) :
    List Nat → Except String (Option (List (Option Extracted))) × List Nat
  | [] => (Except.ok (some []), [])
  | i :: rest =>
    let text_chunk := documents.getD i ""
    match (PromptGenerator.mk data_type).generate_prompt text_chunk with
    | Except.error e => (Except.error e, [])
    | Except.ok prompt =>
      let input_text := a.llm prompt
      if data_type = "json" then
        let entry := (a.extract_json_from_text input_text).map Extracted.json
        match a.extractLoop documents data_type rest with
        | (Except.ok (some tail), calls) => (Except.ok (some (entry :: tail)), i :: calls)
        | (Except.ok none, calls) => (Except.ok none, i :: calls)
        | (Except.error e, calls) => (Except.error e, i :: calls)
      else if data_type = "csv" then
        let entry := (a.extract_csv_from_text input_text).map Extracted.csv
        match a.extractLoop documents data_type rest with
        | (Except.ok (some tail), calls) => (Except.ok (some (entry :: tail)), i :: calls)
        | (Except.ok none, calls) => (Except.ok none, i :: calls)
        | (Except.error e, calls) => (Except.error e, i :: calls)
      else
        (Except.ok none, [i])

/-- `DocumentAnalyzer.extract_eval_data`: iterate
`range(8, len(documents), step_num)`, and for each selected index build
the prompt, invoke the model, and append the extracted record.  The
Python defaults are `data_type = "json"`, `step_num = 10`; `step_num`
must be positive (`range` would otherwise raise). -/
def DocumentAnalyzer.extract_eval_data (a : DocumentAnalyzer) (documents : List String)
    (data_type : String) (step_num : Nat) :
    Except String (Option (List (Option Extracted))) × List Nat :=
  a.extractLoop documents data_type (pyRange 8 documents.length step_num)

end SDG.TextExtarcters

namespace SDG.PromptLoaders

/-- Lead-in of both f-string templates in `prompt_loaders.py`, up to the
interpolated chunk. -/
def promptPre : String := "\n                Analyze the text: "

/-- Tail of the json f-string template in `prompt_loaders.py`. -/
def jsonPromptSuf : String := "\n\n                Extract key information and formulate a list of question-answer pairs in JSON format.\n\n                **Example:**\n\n                \"question\": \"What is formed when dilute sulphuric acid is added to zinc granules?\",\n                \"answer\": \"Change in state, change in colour, evolution of a gas, change in temperature.\""

/-- Closing indentation of the f-string templates in `prompt_loaders.py`. -/
def promptEnd : String := "\n            "

/-- Tail of the csv f-string template in `prompt_loaders.py`. -/
def csvPromptSuf : String := "\n\n                Extract key information and formulate a list of question-answer pairs in CSV format.\n\n                **Example:**\n                question,answer\n                What is formed when dilute sulphuric acid is added to zinc granules?,Change in state, change in colour, evolution of a gas, change in temperature."

/-- The `ValueError` message raised by `prompt_loaders.py` for
unsupported data types. -/
def unsupportedMsg : String :=
  "Currently, only \x27json\x27 and \x27csv\x27 data types are supported for prompt generation."

/-- The `PromptGenerator` class of `prompt_loaders.py`: the constructor
stores a text chunk and a data type (which `__call__` never reads). -/
structure PromptGenerator where
  text_chunk : String
  data_type : String

/-- `PromptGenerator.__call__` of `prompt_loaders.py`: dispatches on its
`data_type` argument, ignoring the constructor-stored fields. -/
def PromptGenerator.call (_g : PromptGenerator) (text_chunk data_type : String) :
    Except String String :=
  if data_type = "json" then
    Except.ok (promptPre ++ text_chunk ++ jsonPromptSuf ++ promptEnd)
  else if data_type = "csv" then
    Except.ok (promptPre ++ text_chunk ++ csvPromptSuf ++ promptEnd)
  else
    Except.error unsupportedMsg

end SDG.PromptLoaders

namespace SDG.TextExtarcters

open SDG

/-- The record produced for one selected document at a supported
`data_type`: build the format's prompt around the chunk, invoke the
model, and run the format's extractor.  The slot is `none` exactly when
that extraction failed. -/
def runOne (a : DocumentAnalyzer) (data_type : String) (chunk : String) : Option Extracted :=
  if data_type = "json" then
    (a.extract_json_from_text
      (a.llm (promptPre ++ chunk ++ jsonPromptSuf ++ promptEnd))).map Extracted.json
  else
    (a.extract_csv_from_text
      (a.llm (promptPre ++ chunk ++ csvPromptSuf ++ promptEnd))).map Extracted.csv

/-- A concrete analyzer whose model oracle always answers the empty
string; used to instantiate universally quantified statements. -/
def dummyA : DocumentAnalyzer := ⟨fun _ => ""⟩

/-- A concrete 20-document list. -/
def docs20 : List String := List.replicate 20 "d"

end SDG.TextExtarcters

namespace SDG

/-- The response contains a region delimited by the triple-backtick
marker on both sides (the specification's fenced-block condition,
stated independently of the scanner). -/
def hasFencedRegion (s : List Char) : Prop :=
  ∃ p m q, s = p ++ fenceMark ++ m ++ fenceMark ++ q

theorem splitAtMark_eq_append (s : List Char) :
    ∀ p q, splitAtMark s = some (p, q) → s = p ++ fenceMark ++ q := by
  induction s with
  | nil => intro p q h; simp [splitAtMark] at h
  | cons c cs ih =>
    intro p q h
    simp only [splitAtMark] at h
    split at h
    · next hc =>
      obtain ⟨hp, hq⟩ := Prod.mk.injEq .. ▸ Option.some.inj h
      subst hp; subst hq
      simp [← hc]
    · next hc =>
      cases hm : splitAtMark cs with
      | none => rw [hm] at h; exact absurd h (by simp)
      | some r =>
        rw [hm] at h
        obtain ⟨p', q'⟩ := r
        obtain ⟨hp, hq⟩ := Prod.mk.injEq .. ▸ Option.some.inj h
        subst hp; subst hq
        simpa using congrArg (c :: ·) (ih p' q' hm)

theorem splitAtMark_isSome_of_append (s : List Char) :
    ∀ p q, s = p ++ fenceMark ++ q → ∃ r, splitAtMark s = some r := by
  induction s with
  | nil =>
    intro p q h
    exact absurd (congrArg List.length h) (by simp [fenceMark]; omega)
  | cons c cs ih =>
    intro p q h
    by_cases hc : (c :: cs).take 3 = fenceMark
    · exact ⟨([], (c :: cs).drop 3), by simp [splitAtMark, hc]⟩
    · cases p with
      | nil =>
        exfalso
        apply hc
        simp only [List.nil_append] at h
        rw [h]
        simp [fenceMark]
      | cons c' p' =>
        simp only [List.cons_append, List.cons.injEq] at h
        obtain ⟨hcc, hcs⟩ := h
        obtain ⟨⟨r1, r2⟩, hr⟩ := ih p' q hcs
        refine ⟨(c :: r1, r2), ?_⟩
        unfold splitAtMark
        rw [if_neg hc, hr]

theorem splitAtMark_min (s : List Char) :
    ∀ p q, splitAtMark s = some (p, q) →
      ∀ pd qd, s = pd ++ fenceMark ++ qd → p.length ≤ pd.length := by
  induction s with
  | nil => intro p q h; simp [splitAtMark] at h
  | cons c cs ih =>
    intro p q h pd qd hd
    simp only [splitAtMark] at h
    split at h
    · next hc =>
      obtain ⟨hp, _⟩ := Prod.mk.injEq .. ▸ Option.some.inj h
      subst hp
      simp
    · next hc =>
      cases pd with
      | nil =>
        exfalso
        apply hc
        simp only [List.nil_append] at hd
        rw [hd]
        simp [fenceMark]
      | cons cd pd' =>
        simp only [List.cons_append, List.cons.injEq] at hd
        obtain ⟨hcc, hcs⟩ := hd
        cases hm : splitAtMark cs with
        | none => rw [hm] at h; exact absurd h (by simp)
        | some r =>
          obtain ⟨p', q'⟩ := r
          rw [hm] at h
          obtain ⟨hp, _⟩ := Prod.mk.injEq .. ▸ Option.some.inj h
          subst hp
          simpa using ih p' q' hm pd' qd hcs

theorem hasFencedRegion_of_findFencedBlock (s b : List Char)
    (h : findFencedBlock s = some b) : hasFencedRegion s := by
  unfold findFencedBlock at h
  cases h1 : splitAtMark s with
  | none => rw [h1] at h; simp at h
  | some r1 =>
    obtain ⟨p, rest⟩ := r1
    rw [h1] at h
    dsimp only at h
    cases h2 : splitAtMark rest with
    | none => rw [h2] at h; simp at h
    | some r2 =>
      obtain ⟨content, q⟩ := r2
      have e1 := splitAtMark_eq_append s p rest h1
      have e2 := splitAtMark_eq_append rest content q h2
      exact ⟨p, content, q, by rw [e1, e2]; simp⟩

theorem findFencedBlock_isSome_of_hasFencedRegion (s : List Char)
    (h : hasFencedRegion s) : ∃ b, findFencedBlock s = some b := by
  obtain ⟨p, m, q, hs⟩ := h
  obtain ⟨⟨a1, rest⟩, h1⟩ := splitAtMark_isSome_of_append s p (m ++ fenceMark ++ q)
    (by rw [hs]; simp)
  have e1 : s = a1 ++ fenceMark ++ rest := splitAtMark_eq_append s a1 rest h1
  have hmin : a1.length ≤ p.length :=
    splitAtMark_min s a1 rest h1 p (m ++ fenceMark ++ q) (by rw [hs]; simp)
  have hlen : a1.length + 3 ≤ (p ++ fenceMark ++ m).length := by
    have hl : (p ++ fenceMark ++ m).length = p.length + 3 + m.length := by
      simp [fenceMark]
      omega
    omega
  have hrest : ∃ p2 q2, rest = p2 ++ fenceMark ++ q2 := by
    refine ⟨(p ++ fenceMark ++ m).drop (a1.length + 3), q, ?_⟩
    have hs' : s = (p ++ fenceMark ++ m) ++ (fenceMark ++ q) := by rw [hs]; simp
    have hdrop : rest = s.drop (a1.length + 3) := by
      rw [e1]
      have hlen2 : (a1 ++ fenceMark).length = a1.length + 3 := by simp [fenceMark]
      rw [← hlen2, List.drop_left]
    rw [hdrop, hs', List.drop_append_of_le_length hlen]
    simp
  obtain ⟨p2, q2, h2⟩ := hrest
  obtain ⟨⟨b, r2⟩, hb⟩ := splitAtMark_isSome_of_append rest p2 q2 h2
  refine ⟨b, ?_⟩
  unfold findFencedBlock
  rw [h1]
  dsimp only
  rw [hb]

theorem pyRangeAux_le_mem :
    ∀ (fuel start stop step y : Nat), y ∈ pyRangeAux fuel start stop step → start ≤ y := by
  intro fuel
  induction fuel with
  | zero => intro start stop step y h; simp [pyRangeAux] at h
  | succ n ihn =>
    intro start stop step y h
    by_cases hlt : start < stop
    · rw [pyRangeAux, if_pos hlt] at h
      rcases List.mem_cons.mp h with h | h
      · omega
      · have := ihn (start + step) stop step y h
        omega
    · rw [pyRangeAux, if_neg hlt] at h
      simp at h

theorem pyRangeAux_mem (step : Nat) (hstep : 0 < step) :
    ∀ (fuel start stop : Nat), stop - start ≤ fuel →
      ∀ i, i ∈ pyRangeAux fuel start stop step ↔ ∃ k, i = start + step * k ∧ i < stop := by
  intro fuel
  induction fuel with
  | zero =>
    intro start stop hf i
    rw [pyRangeAux]
    simp only [List.not_mem_nil, false_iff]
    rintro ⟨k, hk, hi⟩
    have : start ≤ i := hk ▸ Nat.le_add_right start (step * k)
    omega
  | succ n ihn =>
    intro start stop hf i
    by_cases hlt : start < stop
    · rw [pyRangeAux, if_pos hlt, List.mem_cons,
        ihn (start + step) stop (by omega) i]
      constructor
      · rintro (rfl | ⟨k, hk, hi⟩)
        · exact ⟨0, by omega, hlt⟩
        · refine ⟨k + 1, ?_, hi⟩
          rw [Nat.mul_succ]
          omega
      · rintro ⟨k, hk, hi⟩
        cases k with
        | zero => left; omega
        | succ k' =>
          right
          refine ⟨k', ?_, hi⟩
          rw [Nat.mul_succ] at hk
          omega
    · rw [pyRangeAux, if_neg hlt]
      simp only [List.not_mem_nil, false_iff]
      rintro ⟨k, hk, hi⟩
      have : start ≤ i := hk ▸ Nat.le_add_right start (step * k)
      omega

theorem pyRangeAux_pairwise (step : Nat) (hstep : 0 < step) :
    ∀ (fuel start stop : Nat), List.Pairwise (· < ·) (pyRangeAux fuel start stop step) := by
  intro fuel
  induction fuel with
  | zero => intro start stop; simp [pyRangeAux]
  | succ n ihn =>
    intro start stop
    by_cases hlt : start < stop
    · rw [pyRangeAux, if_pos hlt]
      refine List.Pairwise.cons ?_ (ihn (start + step) stop)
      intro y hy
      have := pyRangeAux_le_mem n (start + step) stop step y hy
      omega
    · rw [pyRangeAux, if_neg hlt]
      exact List.Pairwise.nil

theorem pyRange_mem (start stop step : Nat) (hstep : 0 < step) (i : Nat) :
    i ∈ pyRange start stop step ↔ ∃ k, i = start + step * k ∧ i < stop :=
  pyRangeAux_mem step hstep (stop - start) start stop (Nat.le_refl _) i

theorem pyRange_pairwise (start stop step : Nat) (hstep : 0 < step) :
    List.Pairwise (· < ·) (pyRange start stop step) :=
  pyRangeAux_pairwise step hstep (stop - start) start stop

theorem pyRange_eq_nil_of_le (start stop step : Nat) (h : stop ≤ start) :
    pyRange start stop step = [] := by
  unfold pyRange
  have h0 : stop - start = 0 := by omega
  rw [h0]
  rfl

theorem pyRange_ne_nil (start stop step : Nat) (h : start < stop) :
    pyRange start stop step ≠ [] := by
  unfold pyRange
  obtain ⟨k, hk⟩ : ∃ k, stop - start = k + 1 := ⟨stop - start - 1, by omega⟩
  rw [hk, pyRangeAux, if_pos h]
  simp

end SDG

namespace SDG.TextExtarcters

open SDG

theorem extractLoop_valid (a : DocumentAnalyzer) (docs : List String) (dt : String)
    (hdt : dt = "json" ∨ dt = "csv") (is : List Nat) :
    a.extractLoop docs dt is =
      (Except.ok (some (is.map (fun i => runOne a dt (docs.getD i "")))), is) := by
  induction is with
  | nil => rfl
  | cons i rest ih =>
    rcases hdt with h | h <;> subst h
    · simp only [DocumentAnalyzer.extractLoop, PromptGenerator.generate_prompt, runOne,
        List.map_cons, ih]
      simp
    · simp only [DocumentAnalyzer.extractLoop, PromptGenerator.generate_prompt, runOne,
        List.map_cons, ih]
      simp

theorem extractLoop_invalid (a : DocumentAnalyzer) (docs : List String) (dt : String)
    (hj : dt ≠ "json") (hc : dt ≠ "csv") (is : List Nat) :
    (a.extractLoop docs dt is).2 = [] ∧
      (is ≠ [] → (a.extractLoop docs dt is).1 = Except.error unsupportedMsg) := by
  cases is with
  | nil => exact ⟨rfl, fun h => absurd rfl h⟩
  | cons i rest =>
    simp only [DocumentAnalyzer.extractLoop, PromptGenerator.generate_prompt]
    rw [if_neg hj, if_neg hc]
    exact ⟨rfl, fun _ => rfl⟩

/-- C1 (counterexample): with the unsupported format value "xml" and an
empty documents list, `extract_eval_data` returns an empty result list
without raising any error and with zero model invocations — refuting the
claim that the batch run fails with a `ValueError` for every documents
list when the format is unsupported. -/
theorem c1_counterexample :
    ("xml" ≠ "json" ∧ "xml" ≠ "csv") ∧
      dummyA.extract_eval_data [] "xml" 10 = (Except.ok (some []), []) :=
  ⟨⟨by decide, by decide⟩, rfl⟩

/-- C1 (amended): for a format value outside the supported set,
`generate_prompt` always raises the `ValueError`, the batch run makes
zero model invocations, and the batch run raises the `ValueError`
whenever at least one document index is selected (that is, when more
than eight documents are present); validation happens at the first
selected document inside the loop, not at construction time. -/
theorem c1_unsupported_format_amended (dt : String) (hj : dt ≠ "json") (hc : dt ≠ "csv")
    (a : DocumentAnalyzer) (docs : List String) (step : Nat) :
    (∀ chunk : String,
      (PromptGenerator.mk dt).generate_prompt chunk = Except.error unsupportedMsg) ∧
    (a.extract_eval_data docs dt step).2 = [] ∧
    (0 < step → 8 < docs.length →
      (a.extract_eval_data docs dt step).1 = Except.error unsupportedMsg) := by
  refine ⟨?_, ?_, ?_⟩
  · intro chunk
    unfold PromptGenerator.generate_prompt
    dsimp only
    rw [if_neg hj, if_neg hc]
  · exact (extractLoop_invalid a docs dt hj hc _).1
  · intro _ hl
    unfold DocumentAnalyzer.extract_eval_data
    exact (extractLoop_invalid a docs dt hj hc _).2 (pyRange_ne_nil 8 docs.length step hl)

/-- C1 witness: instantiates the amended statement at format "xml" with
a nine-document list. -/
theorem c1_unsupported_format_amended_witness :
    (PromptGenerator.mk "xml").generate_prompt "t" = Except.error unsupportedMsg ∧
      (dummyA.extract_eval_data (List.replicate 9 "d") "xml" 10).1 =
        Except.error unsupportedMsg ∧
      (dummyA.extract_eval_data (List.replicate 9 "d") "xml" 10).2 = [] := by
  have h := c1_unsupported_format_amended "xml" (by decide) (by decide) dummyA
    (List.replicate 9 "d") 10
  exact ⟨h.1 "t", h.2.2 (by decide) (by decide), h.2.1⟩

/-- C2: for every documents list, positive stride and supported format,
the batch run invokes the model exactly at the indices of
`range(8, len(documents), stride)`, in strictly increasing order and
once per index; those indices are exactly the `8 + stride * k` below the
list length; and the run returns a result list with one slot per
selected index. -/
theorem c2_stride_sampling (a : DocumentAnalyzer) (docs : List String) (dt : String)
    (step : Nat) (hstep : 0 < step) (hdt : dt = "json" ∨ dt = "csv") :
    (a.extract_eval_data docs dt step).2 = pyRange 8 docs.length step ∧
    (∀ i, i ∈ pyRange 8 docs.length step ↔ ∃ k, i = 8 + step * k ∧ i < docs.length) ∧
    List.Pairwise (· < ·) (pyRange 8 docs.length step) ∧
    ∃ l, (a.extract_eval_data docs dt step).1 = Except.ok (some l) ∧
      l.length = (pyRange 8 docs.length step).length := by
  have hloop := extractLoop_valid a docs dt hdt (pyRange 8 docs.length step)
  unfold DocumentAnalyzer.extract_eval_data
  rw [hloop]
  exact ⟨rfl, fun i => pyRange_mem 8 docs.length step hstep i,
    pyRange_pairwise 8 docs.length step hstep,
    ⟨(pyRange 8 docs.length step).map (fun i => runOne a dt (docs.getD i "")), rfl,
      by rw [List.length_map]⟩⟩

/-- C2 witness: with 20 documents, format json and stride 10, the model
is invoked exactly twice, at indices 8 and 18, and the result list has
length 2. -/
theorem c2_stride_sampling_witness :
    (dummyA.extract_eval_data docs20 "json" 10).2 = [8, 18] ∧
      ∃ l, (dummyA.extract_eval_data docs20 "json" 10).1 = Except.ok (some l) ∧
        l.length = 2 := by
  obtain ⟨h1, _, _, l, h4, h5⟩ :=
    c2_stride_sampling dummyA docs20 "json" 10 (by decide) (Or.inl rfl)
  refine ⟨?_, l, h4, ?_⟩
  · rw [h1]; rfl
  · rw [h5]; rfl

/-- C3: for every supported format (the model oracle always returns a
string), the batch run returns exactly one slot per selected index, in
sampling order, each slot being `runOne` of that document — whose value
is `none` exactly when extraction failed there — and the result list is
never shorter than the selected index list. -/
theorem c3_resultset_complete (a : DocumentAnalyzer) (docs : List String) (dt : String)
    (step : Nat) (hdt : dt = "json" ∨ dt = "csv") :
    a.extract_eval_data docs dt step =
      (Except.ok (some ((pyRange 8 docs.length step).map
          (fun i => runOne a dt (docs.getD i "")))),
        pyRange 8 docs.length step) ∧
    ∀ l, (a.extract_eval_data docs dt step).1 = Except.ok (some l) →
      l.length = (pyRange 8 docs.length step).length := by
  have hloop := extractLoop_valid a docs dt hdt (pyRange 8 docs.length step)
  constructor
  · exact hloop
  · intro l hl
    unfold DocumentAnalyzer.extract_eval_data at hl
    rw [hloop] at hl
    simp only [Except.ok.injEq, Option.some.injEq] at hl
    rw [← hl, List.length_map]

/-- C3 witness: instantiates the statement at 20 documents, format json,
stride 10 and the trivial oracle: both slots are filled (with `none`
records, extraction having failed on the empty response). -/
theorem c3_resultset_complete_witness :
    dummyA.extract_eval_data docs20 "json" 10 = (Except.ok (some [none, none]), [8, 18]) := by
  have h := (c3_resultset_complete dummyA docs20 "json" 10 (Or.inl rfl)).1
  rw [h]
  rfl

/-- C4: for the response consisting of the JSON object with keys
"question" and "answer" enclosed in triple backticks, json extraction
returns the decoded mapping (fence location, whitespace trim, then JSON
decode of the fenced content). -/
theorem c4_json_round_trip (a : DocumentAnalyzer) :
    a.extract_json_from_text "```\x7b\"question\":\"q\",\"answer\":\"a\"\x7d```" =
      some (Json.obj [("question", Json.str "q"), ("answer", Json.str "a")]) := rfl

/-- C5: for the fenced two-line response "question,answer" and "q1,a1",
csv extraction returns the single row mapping question to q1 and answer
to a1; in general, when the header count matches the value count, a data
row is the positional zip of headers with values. -/
theorem c5_csv_round_trip (a : DocumentAnalyzer) :
    a.extract_csv_from_text "```question,answer\nq1,a1```" =
      some [[(some "question", CsvCell.val "q1"), (some "answer", CsvCell.val "a1")]] ∧
    ∀ fieldnames row : List String, fieldnames.length = row.length →
      dictRow fieldnames row =
        (fieldnames.zip row).map (fun p => (some p.1, CsvCell.val p.2)) := by
  constructor
  · rfl
  · intro fns row h
    unfold dictRow
    rw [← h, List.drop_length]
    simp

/-- C5 witness: instantiates the round trip and the zip property at a
one-column header and row. -/
theorem c5_csv_round_trip_witness :
    dummyA.extract_csv_from_text "```question,answer\nq1,a1```" =
      some [[(some "question", CsvCell.val "q1"), (some "answer", CsvCell.val "a1")]] ∧
    dictRow ["h"] ["v"] = [(some "h", CsvCell.val "v")] := by
  refine ⟨(c5_csv_round_trip dummyA).1, ?_⟩
  have h := (c5_csv_round_trip dummyA).2 ["h"] ["v"] rfl
  rw [h]
  rfl

/-- C6: json extraction returns `none` (rather than raising) both when
the response contains no region delimited by triple backticks on both
sides, and when the first fenced block's trimmed content does not decode
as JSON. -/
theorem c6_json_null_on_malformed (a : DocumentAnalyzer) (s : String) :
    (¬ hasFencedRegion s.data → a.extract_json_from_text s = none) ∧
    (∀ b, findFencedBlock s.data = some b → json_loads (pyStrip b) = none →
      a.extract_json_from_text s = none) := by
  constructor
  · intro hno
    cases hf : findFencedBlock s.data with
    | none =>
      unfold DocumentAnalyzer.extract_json_from_text
      rw [hf]
    | some b => exact absurd (hasFencedRegion_of_findFencedBlock s.data b hf) hno
  · intro b hb hl
    unfold DocumentAnalyzer.extract_json_from_text
    rw [hb]
    exact hl

/-- C6 witness: the two concrete malformed inputs of the specification,
a response without backticks and a fenced block that is not JSON, both
extract to `none`. -/
theorem c6_json_null_on_malformed_witness :
    dummyA.extract_json_from_text "no backticks here" = none ∧
    dummyA.extract_json_from_text "```not valid json```" = none := by
  constructor
  · refine (c6_json_null_on_malformed dummyA "no backticks here").1 ?_
    intro h
    obtain ⟨b, hb⟩ := findFencedBlock_isSome_of_hasFencedRegion _ h
    rw [show findFencedBlock ("no backticks here").data = none from rfl] at hb
    exact Option.noConfusion hb
  · exact (c6_json_null_on_malformed dummyA "```not valid json```").2
      ("not valid json".toList) rfl rfl

/-- C7: when at most eight documents are present (the start offset 8 is
at or beyond the end), the batch run returns an empty result list, makes
zero model invocations and raises no error, for every format and stride. -/
theorem c7_start_offset_beyond_docs (a : DocumentAnalyzer) (docs : List String)
    (dt : String) (step : Nat) (h : docs.length ≤ 8) :
    a.extract_eval_data docs dt step = (Except.ok (some []), []) := by
  unfold DocumentAnalyzer.extract_eval_data
  rw [pyRange_eq_nil_of_le 8 docs.length step h]
  rfl

/-- C7 witness: the specification's two-document case with format json
and stride 10. -/
theorem c7_start_offset_beyond_docs_witness :
    dummyA.extract_eval_data ["a", "b"] "json" 10 = (Except.ok (some []), []) :=
  c7_start_offset_beyond_docs dummyA ["a", "b"] "json" 10 (by decide)

/-- C8: for each supported format, prompt generation succeeds with a
non-empty string that contains the input chunk verbatim as a substring
(the prompt is literally a fixed lead-in, the unmodified chunk, and a
fixed tail). -/
theorem c8_prompt_contains_chunk (dt : String) (hdt : dt = "json" ∨ dt = "csv")
    (chunk : String) :
    ∃ p : String, (PromptGenerator.mk dt).generate_prompt chunk = Except.ok p ∧
      p.length ≠ 0 ∧ ∃ pre suf : String, p = pre ++ chunk ++ suf := by
  have hpre : promptPre.length = 35 := rfl
  rcases hdt with h | h <;> subst h
  · refine ⟨promptPre ++ chunk ++ jsonPromptSuf ++ promptEnd, rfl, ?_,
      promptPre, jsonPromptSuf ++ promptEnd, ?_⟩
    · rw [String.length_append, String.length_append, String.length_append]
      intro h0
      omega
    · exact String.append_assoc _ _ _
  · refine ⟨promptPre ++ chunk ++ csvPromptSuf ++ promptEnd, rfl, ?_,
      promptPre, csvPromptSuf ++ promptEnd, ?_⟩
    · rw [String.length_append, String.length_append, String.length_append]
      intro h0
      omega
    · exact String.append_assoc _ _ _

/-- C8 witness: instantiates the statement at format json and a concrete
chunk. -/
theorem c8_prompt_contains_chunk_witness :
    ∃ p : String, (PromptGenerator.mk "json").generate_prompt "CHUNK" = Except.ok p ∧
      p.length ≠ 0 ∧ ∃ pre suf : String, p = pre ++ "CHUNK" ++ suf :=
  c8_prompt_contains_chunk "json" (Or.inl rfl) "CHUNK"

/-- C9: the two extractors are pure functions of the response text: the
result is independent of the analyzer (and so of its model client), and
equal inputs give equal results. -/
theorem c9_extractors_pure (a1 a2 : DocumentAnalyzer) (s : String) :
    a1.extract_json_from_text s = a2.extract_json_from_text s ∧
      a1.extract_csv_from_text s = a2.extract_csv_from_text s :=
  ⟨rfl, rfl⟩

end SDG.TextExtarcters

namespace SDG

/-- C10: the `prompt_loaders.py` generator called with a chunk and a
data type produces exactly what the `text_extarcters.py` generator
constructed with that data type produces on the chunk — the same prompt
string for supported types and the same raised `ValueError` otherwise —
independently of the state stored at construction time. -/
theorem c10_prompt_generators_equivalent (g : PromptLoaders.PromptGenerator)
    (text_chunk data_type : String) :
    g.call text_chunk data_type =
      (TextExtarcters.PromptGenerator.mk data_type).generate_prompt text_chunk := rfl

end SDG
